import Mathlib

/-!
Shallow embedding of the ETL job runner (src/etl_api_runner.py, with the
JSON stats endpoint of src/upload_from_space1.py where the two scripts
compute the same quantities).  The document store and the object storage
backend are modelled as explicit values threaded through the functions;
call faults of the backends are modelled as oracle inputs mirroring the
try/except structure of the source.
-/

namespace Etl

/-- A stored document, `{"url_id": row[0], "input_url": row[1], "status": "pending"}`
(etl_api_runner.py line 105). -/
structure Doc where
  url_id : String
  input_url : String
  status : String
deriving Repr, DecidableEq

/-- A Mongo collection, as the list of documents inserted so far, in insertion
order. -/
abbrev Collection := List Doc

/-- The document database: named collections, `db[collection_name]`. -/
abbrev Db := List (String × Collection)

/-- Reading `db[collection_name]`: an unknown name denotes the empty collection
(Mongo creates collections lazily). -/
def dbGet (db : Db) (name : String) : Collection :=
  match db.find? (fun p => p.1 == name) with
  | some p => p.2
  | none => []

/-- Writing back a collection under its name. -/
def dbSet (db : Db) (name : String) (c : Collection) : Db :=
  if db.any (fun p => p.1 == name) then
    db.map (fun p => if p.1 == name then (p.1, c) else p)
  else db ++ [(name, c)]

/-- `collection.find_one({"url_id": u})` (etl_api_runner.py line 109): first
document whose dedup key equals `u`. -/
def find_one (c : Collection) (u : String) : Option Doc :=
  c.find? (fun d => d.url_id == u)

/-- Number of documents in a collection whose dedup key is `u`. -/
def countUrlId (c : Collection) (u : String) : Nat :=
  c.countP (fun d => d.url_id == u)

/-- Outcome of processing one CSV row (etl_api_runner.py lines 100-116). -/
inductive RowOutcome
  | skippedMalformed
  | insertedNew
  | skippedDuplicate
  | rowError
deriving Repr, DecidableEq

/-- The check-then-insert of the Dedup Writer (etl_api_runner.py lines
108-114): if no document with the same `url_id` exists, append the document;
otherwise skip and report a duplicate. -/
def dedupInsert (c : Collection) (d : Doc) : Collection × RowOutcome :=
  match find_one c d.url_id with
  | none => (c ++ [d], .insertedNew)
  | some _ => (c, .skippedDuplicate)

/-- The shared counters (etl_api_runner.py lines 44-45). -/
structure Counters where
  inserted_count : Nat
  total_count : Nat
deriving Repr, DecidableEq

/-- Building the document from a parsed row (etl_api_runner.py lines 101-105):
rows with fewer than 2 fields are malformed and produce nothing; otherwise the
document takes the row's first two fields verbatim. -/
def rowDoc (row : List String) : Option Doc :=
  match row with
  | a :: b :: _ => some ⟨a, b, "pending"⟩
  | _ => none

/-- One iteration of the row loop (etl_api_runner.py lines 100-116).  `fault`
is true when the document-store call raises for this row; the exception is
caught at line 115 and the row has no effect.  On a successful insert the
`inserted_count` is incremented (under the lock, line 111-112); `total_count`
is not touched here. -/
def processRow (c : Collection) (cnt : Counters) (row : List String) (fault : Bool) :
    Collection × Counters × RowOutcome :=
  match rowDoc row with
  | none => (c, cnt, .skippedMalformed)
  | some doc =>
    if fault then (c, cnt, .rowError)
    else
      match find_one c doc.url_id with
      | none => (c ++ [doc], ⟨cnt.inserted_count + 1, cnt.total_count⟩, .insertedNew)
      | some _ => (c, cnt, .skippedDuplicate)

/-- The row loop over all parsed rows of a file, with a per-row fault oracle
(missing entries default to no fault). -/
def processRows (c : Collection) (cnt : Counters) (rows : List (List String))
    (faults : List Bool) : Collection × Counters × List RowOutcome :=
  match rows with
  | [] => (c, cnt, [])
  | row :: rest =>
    let step := processRow c cnt row (faults.headD false)
    let next := processRows step.1 step.2.1 rest faults.tail
    (next.1, next.2.1, step.2.2 :: next.2.2)

/-- `insert_csv_from_stream` (etl_api_runner.py lines 86-121).  `parsed` is the
result of decoding and parsing the stream (lines 90-95): `Except.error` models
the caught decode/parse failure, in which case the function returns with no
effect.  On success `total_count` is incremented by the full row count (line
97) before the row loop runs. -/
def insert_csv_from_stream (db : Db) (cnt : Counters) (collection_name : String)
    (parsed : Except Unit (List (List String))) (faults : List Bool) :
    Db × Counters × List RowOutcome :=
  match parsed with
  | .error _ => (db, cnt, [])
  | .ok rows =>
    let cnt1 : Counters := ⟨cnt.inserted_count, cnt.total_count + rows.length⟩
    let res := processRows (dbGet db collection_name) cnt1 rows faults
    (dbSet db collection_name res.1, res.2.1, res.2.2)

/-- Rows with at least 2 fields (the ones that produce a document). -/
def wellFormedCount (rows : List (List String)) : Nat :=
  (rows.filter (fun r => 2 ≤ r.length)).length

/-- Rows with fewer than 2 fields (skipped as malformed at lines 101-103). -/
def malformedCount (rows : List (List String)) : Nat :=
  (rows.filter (fun r => r.length < 2)).length

/-- Splitting a character list at every occurrence of a separator. -/
def splitChars (sep : Char) : List Char → List (List Char)
  | [] => [[]]
  | c :: cs =>
    let rest := splitChars sep cs
    if c = sep then [] :: rest
    else
      match rest with
      | [] => [[c]]
      | g :: gs => (c :: g) :: gs

/-- `os.path.basename`: the part of the key after the last slash. -/
def basename (key : String) : String :=
  String.mk ((splitChars '/' key.toList).getLastD key.toList)

/-- `key.endswith(".csv")` (etl_api_runner.py line 144). -/
def endsWithCsv (key : String) : Bool :=
  match key.toList.reverse with
  | 'v' :: 's' :: 'c' :: '.' :: _ => true
  | _ => false

/-- The base of `os.path.splitext`: drop the extension after the last dot,
where leading dots of the name never start an extension. -/
def splitextBase (name : String) : String :=
  let cs := name.toList
  let lead := cs.takeWhile (fun ch => ch = '.')
  let rest := cs.drop lead.length
  if rest.contains '.' then
    let after := (rest.reverse.takeWhile (fun ch => ch ≠ '.')).length
    String.mk (lead ++ rest.take (rest.length - after - 1))
  else name

/-- Configuration read at startup (etl_api_runner.py lines 18-19):
`COLLECTION_MODE` (default `per_file`) and the fixed collection name. -/
structure Config where
  mode : String
  fixed_collection : String

/-- Target collection of one file (etl_api_runner.py line 149). -/
def collectionNameFor (cfg : Config) (key : String) : String :=
  if cfg.mode == "per_file" then splitextBase (basename key) else cfg.fixed_collection

/-- The whole mutable global state of the process (etl_api_runner.py lines
44-48), bundled with the document database; the timestamp is a natural
number of seconds. -/
structure EtlState where
  db : Db
  counters : Counters
  job_running : Bool
  start_time : Option Nat
deriving Repr, DecidableEq

/-- Result of `s3.list_objects_v2` (etl_api_runner.py lines 132-142): the call
can raise (caught at line 134), return a response without a `Contents` field
(line 139), or return the listed keys. -/
inductive ListingResult
  | listError
  | noContents
  | contents (keys : List String)

/-- Per-key backend behaviour: `download` is the result of
`download_with_progress` (etl_api_runner.py lines 53-81), which returns the
buffer or `None` when the transfer raised; on success the buffer decodes and
parses to `Except.ok rows`, or `Except.error` when decoding raises.  `faults`
is the per-row document-store fault oracle. -/
structure FileData where
  download : Option (Except Unit (List (List String)))
  faults : List Bool

/-- The environment of one run: the listing result, the behaviour of each
remote key, and the wall clock at the start of the run. -/
structure Env where
  listing : ListingResult
  file : String → FileData
  now : Nat

/-- What the run loop did with one file. -/
inductive FileOutcome
  | downloadFailed
  | processed (outs : List RowOutcome)
deriving Repr, DecidableEq

/-- One iteration of the file loop (etl_api_runner.py lines 147-158): derive
the collection name, download, and on success run `insert_csv_from_stream`;
a failed download (`None` buffer) leaves the state untouched. -/
def processOneFile (cfg : Config) (env : Env) (st : EtlState) (key : String) :
    EtlState × FileOutcome :=
  match (env.file key).download with
  | none => (st, .downloadFailed)
  | some parsed =>
    let res := insert_csv_from_stream st.db st.counters (collectionNameFor cfg key)
      parsed (env.file key).faults
    (⟨res.1, res.2.1, st.job_running, st.start_time⟩, .processed res.2.2)

/-- The file loop (etl_api_runner.py lines 147-158), returning the final state
and the per-file trace in listing order.  The loop body never reads
`job_running`. -/
def runFiles (cfg : Config) (env : Env) (st : EtlState) (keys : List String) :
    EtlState × List (String × FileOutcome) :=
  match keys with
  | [] => (st, [])
  | key :: rest =>
    let step := processOneFile cfg env st key
    let next := runFiles cfg env step.1 rest
    (next.1, (key, step.2) :: next.2)

/-- The prologue of the run loop (etl_api_runner.py lines 127-129): set
`job_running = True` and record the start time.  The counters are not
touched. -/
def runPrologue (st : EtlState) (now : Nat) : EtlState :=
  ⟨st.db, st.counters, true, some now⟩

/-- `process_all_csv_from_spaces` (etl_api_runner.py lines 126-162): prologue,
listing (a raised listing call or a listing without contents ends the run with
`job_running = False` and nothing processed), `.csv` filtering, the file loop,
and the final `job_running = False`. -/
def process_all_csv_from_spaces (cfg : Config) (env : Env) (st : EtlState) :
    EtlState × List (String × FileOutcome) :=
  let st1 := runPrologue st env.now
  match env.listing with
  | .listError => (⟨st1.db, st1.counters, false, st1.start_time⟩, [])
  | .noContents => (⟨st1.db, st1.counters, false, st1.start_time⟩, [])
  | .contents keys =>
    let csv_files := keys.filter (fun k => endsWithCsv k)
    let res := runFiles cfg env st1 csv_files
    (⟨res.1.db, res.1.counters, false, res.1.start_time⟩, res.2)

/-- The `/start` route (etl_api_runner.py lines 169-176): when a job is
running, answer without side effects and spawn nothing; otherwise spawn the
run loop thread.  The boolean records whether `Thread(...).start()` ran. -/
def start_job (st : EtlState) : EtlState × String × Bool :=
  if st.job_running then (st, "⚠️ Job already running", false)
  else (st, "🚀 Job started", true)

/-- The `/stop` route (etl_api_runner.py lines 178-182): unconditionally clear
`job_running` and answer immediately. -/
def stop_job (st : EtlState) : EtlState × String :=
  (⟨st.db, st.counters, false, st.start_time⟩, "🛑 Stop signal sent (will finish current file)")

/-- The file loop as executed when a concurrent `stop_job` lands at the loop
boundary after the first `k` files: the stop handler clears `job_running`;
since the loop body (etl_api_runner.py lines 147-158) never reads
`job_running`, iteration continues over the remaining keys exactly as in
`runFiles`. -/
def runFilesStopAfter (cfg : Config) (env : Env) (st : EtlState)
    (keys : List String) (k : Nat) : EtlState × List (String × FileOutcome) :=
  match k with
  | 0 => runFiles cfg env (stop_job st).1 keys
  | Nat.succ k =>
    match keys with
    | [] => (st, [])
    | key :: rest =>
      let step := processOneFile cfg env st key
      let next := runFilesStopAfter cfg env step.1 rest k
      (next.1, (key, step.2) :: next.2)

/-- The report assembled by the `/stats` route (upload_from_space1.py lines
122-136; etl_api_runner.py lines 185-236 renders the same quantities as HTML).
`progress` is the numeric percentage value; the source renders it with two
decimals and renders the string `0%` when `total_count` is zero. -/
structure StatsReport where
  inserted : Nat
  total : Nat
  progress : ℚ
  cpu_usage : ℚ
  memory_usage : ℚ
  uptime_seconds : Nat
  job_running : Bool
  healthy : Bool

/-- The `/stats` route (upload_from_space1.py lines 122-136): `cpu` and `mem`
are the sampled CPU and memory percentages. -/
def stats (st : EtlState) (cpu mem : ℚ) (now : Nat) : StatsReport :=
  { inserted := st.counters.inserted_count
    total := st.counters.total_count
    progress :=
      if st.counters.total_count = 0 then 0
      else (st.counters.inserted_count : ℚ) / (st.counters.total_count : ℚ) * 100
    cpu_usage := cpu
    memory_usage := mem
    uptime_seconds := match st.start_time with
      | some t0 => now - t0
      | none => 0
    job_running := st.job_running
    healthy := decide (cpu < 80) && decide (mem < 80) }

/-- Which counter a source location touches. -/
inductive CounterField
  | insertedField
  | totalField
deriving Repr, DecidableEq

/-- Whether a source location reads or mutates the counter. -/
inductive AccessKind
  | readAccess
  | writeAccess
deriving Repr, DecidableEq

/-- A static description of one source location of src/etl_api_runner.py that
touches the shared counters `inserted_count`/`total_count`: whether it is a
read or a mutation, whether it belongs to the `/stats` reporter, and whether
the access happens inside a `with lock:` block. -/
structure CounterAccess where
  location : String
  field : CounterField
  kind : AccessKind
  inStatsReporter : Bool
  underLock : Bool
deriving Repr, DecidableEq

/-- Every access to the shared counters in src/etl_api_runner.py.  The only
`with lock:` block in the file is lines 111-112 around `inserted_count += 1`;
the `total_count += len(rows)` at line 97, the summary prints at lines 121 and
162, and the `/stats` reads at lines 191, 229 and 230 happen outside any lock.
No source location ever resets the counters after their initialisation at
module load (lines 44-45). -/
def counterAccesses : List CounterAccess :=
  [⟨"line 97: total_count += len(rows)", .totalField, .writeAccess, false, false⟩,
   ⟨"line 112: inserted_count += 1", .insertedField, .writeAccess, false, true⟩,
   ⟨"line 121: per-file summary print, inserted_count", .insertedField, .readAccess, false, false⟩,
   ⟨"line 121: per-file summary print, total_count", .totalField, .readAccess, false, false⟩,
   ⟨"line 162: final summary print, inserted_count", .insertedField, .readAccess, false, false⟩,
   ⟨"line 162: final summary print, total_count", .totalField, .readAccess, false, false⟩,
   ⟨"line 191: stats progress, inserted_count", .insertedField, .readAccess, true, false⟩,
   ⟨"line 191: stats progress, total_count", .totalField, .readAccess, true, false⟩,
   ⟨"line 229: stats page, inserted_count", .insertedField, .readAccess, true, false⟩,
   ⟨"line 230: stats page, total_count", .totalField, .readAccess, true, false⟩]

/-- The demo configuration: per-file collection naming. -/
def demoCfg : Config := ⟨"per_file", "master"⟩

/-- A concrete two-file environment: the listing returns `a.csv` and `b.csv`,
each downloading and parsing to a single well-formed row. -/
def demoEnv : Env :=
  ⟨ListingResult.contents ["a.csv", "b.csv"],
   fun k =>
     if k == "a.csv" then ⟨some (Except.ok [["1", "http://x"]]), []⟩
     else ⟨some (Except.ok [["1", "http://z"]]), []⟩,
   5⟩

/-- The fresh process state: empty database, zero counters, no job running. -/
def demoState : EtlState := ⟨[], ⟨0, 0⟩, false, none⟩

end Etl

namespace Etl

theorem find_one_eq_none_iff (c : Collection) (u : String) :
    find_one c u = none ↔ countUrlId c u = 0 := by
  simp [find_one, countUrlId, List.find?_eq_none, List.countP_eq_zero]

theorem wellFormed_add_malformed (rows : List (List String)) :
    wellFormedCount rows + malformedCount rows = rows.length := by
  have h := List.length_eq_countP_add_countP (p := fun r : List String => decide (2 ≤ r.length)) rows
  have h1 : wellFormedCount rows = rows.countP (fun r => decide (2 ≤ r.length)) :=
    (List.countP_eq_length_filter _ _).symm
  have h2 : malformedCount rows = rows.countP (fun r => ¬ decide (2 ≤ r.length)) := by
    rw [List.countP_eq_length_filter]
    unfold malformedCount
    congr 1
    apply List.filter_congr
    intro r _
    simp
  omega

theorem processRow_total (c : Collection) (cnt : Counters) (row : List String)
    (fault : Bool) : (processRow c cnt row fault).2.1.total_count = cnt.total_count := by
  cases row with
  | nil => rfl
  | cons a t =>
    cases t with
    | nil => rfl
    | cons b r =>
      cases fault with
      | true => rfl
      | false =>
        cases hf : find_one c a with
        | none => simp [processRow, rowDoc, hf]
        | some d => simp [processRow, rowDoc, hf]

theorem processRow_inserted_le (c : Collection) (cnt : Counters) (row : List String)
    (fault : Bool) :
    (processRow c cnt row fault).2.1.inserted_count ≤
      cnt.inserted_count + (if 2 ≤ row.length then 1 else 0) := by
  cases row with
  | nil => simp [processRow, rowDoc]
  | cons a t =>
    cases t with
    | nil => simp [processRow, rowDoc]
    | cons b r =>
      have hw : (if 2 ≤ (a :: b :: r).length then 1 else 0) = 1 := by
        simp [List.length_cons]
      rw [hw]
      cases fault with
      | true => simp [processRow, rowDoc]
      | false =>
        cases hf : find_one c a with
        | none => simp [processRow, rowDoc, hf]
        | some d => simp [processRow, rowDoc, hf]

theorem processRows_total_eq (rows : List (List String)) :
    ∀ (c : Collection) (cnt : Counters) (faults : List Bool),
      (processRows c cnt rows faults).2.1.total_count = cnt.total_count := by
  induction rows with
  | nil => intro c cnt faults; rfl
  | cons row rest ih =>
    intro c cnt faults
    simp only [processRows]
    rw [ih, processRow_total]

theorem processRows_inserted_le (rows : List (List String)) :
    ∀ (c : Collection) (cnt : Counters) (faults : List Bool),
      (processRows c cnt rows faults).2.1.inserted_count ≤
        cnt.inserted_count + wellFormedCount rows := by
  induction rows with
  | nil => intro c cnt faults; simp [processRows, wellFormedCount]
  | cons row rest ih =>
    intro c cnt faults
    simp only [processRows]
    have h1 := processRow_inserted_le c cnt row (faults.headD false)
    have h2 := ih (processRow c cnt row (faults.headD false)).1
      (processRow c cnt row (faults.headD false)).2.1 faults.tail
    have h3 : wellFormedCount (row :: rest) =
        (if 2 ≤ row.length then 1 else 0) + wellFormedCount rest := by
      by_cases h : 2 ≤ row.length
      · simp [wellFormedCount, List.filter_cons, h]
        omega
      · simp [wellFormedCount, List.filter_cons, h]
    rw [h3]
    by_cases h : 2 ≤ row.length
    · rw [if_pos h] at h1 ⊢
      omega
    · rw [if_neg h] at h1 ⊢
      omega

/-- C3: performing the check-then-insert of the same `urlId` twice in sequence
into one collection that does not yet hold that key leaves exactly one stored
document with that key after both attempts, and the second attempt reports the
skipped-duplicate outcome. -/
theorem dedup_insert_idempotent (c : Collection) (u url1 url2 : String)
    (h : countUrlId c u = 0) :
    countUrlId ((dedupInsert ((dedupInsert c ⟨u, url1, "pending"⟩).1)
        ⟨u, url2, "pending"⟩).1) u = 1 ∧
    (dedupInsert ((dedupInsert c ⟨u, url1, "pending"⟩).1)
        ⟨u, url2, "pending"⟩).2 = RowOutcome.skippedDuplicate := by
  have h1 : find_one c u = none := (find_one_eq_none_iff c u).mpr h
  have e1 : dedupInsert c ⟨u, url1, "pending"⟩ = (c ++ [⟨u, url1, "pending"⟩], .insertedNew) := by
    simp [dedupInsert, h1]
  have h1' : c.find? (fun d => d.url_id == u) = none := h1
  have h2 : find_one (c ++ [(⟨u, url1, "pending"⟩ : Doc)]) u = some ⟨u, url1, "pending"⟩ := by
    simp [find_one, List.find?_append, h1', List.find?]
  have e2 : dedupInsert (c ++ [(⟨u, url1, "pending"⟩ : Doc)]) ⟨u, url2, "pending"⟩ =
      (c ++ [⟨u, url1, "pending"⟩], .skippedDuplicate) := by
    simp [dedupInsert, h2]
  rw [e1]
  rw [e2]
  refine ⟨?_, rfl⟩
  simp [countUrlId, List.countP_append, List.countP_cons]
  simpa [countUrlId] using h

/-- Witness for C3 at the empty collection and key `1`. -/
theorem dedup_insert_idempotent_witness :
    countUrlId ([] : Collection) "1" = 0 ∧
    (countUrlId ((dedupInsert ((dedupInsert ([] : Collection) ⟨"1", "u", "pending"⟩).1)
        ⟨"1", "v", "pending"⟩).1) "1" = 1 ∧
     (dedupInsert ((dedupInsert ([] : Collection) ⟨"1", "u", "pending"⟩).1)
        ⟨"1", "v", "pending"⟩).2 = RowOutcome.skippedDuplicate) :=
  ⟨rfl, dedup_insert_idempotent [] "1" "u" "v" rfl⟩

/-- C4: processing a parsed file with `R` well-formed rows (at least 2 fields)
and `M` malformed rows (fewer than 2 fields) increases `total_count` by
exactly `R + M` and increases `inserted_count` by at most `R`, for every
database, counter state, target collection and per-row fault pattern. -/
theorem row_counting_invariant (db : Db) (cnt : Counters) (name : String)
    (rows : List (List String)) (faults : List Bool) :
    (insert_csv_from_stream db cnt name (Except.ok rows) faults).2.1.total_count
      = cnt.total_count + (wellFormedCount rows + malformedCount rows) ∧
    (insert_csv_from_stream db cnt name (Except.ok rows) faults).2.1.inserted_count
      ≤ cnt.inserted_count + wellFormedCount rows := by
  constructor
  · show (processRows (dbGet db name)
        ⟨cnt.inserted_count, cnt.total_count + rows.length⟩ rows faults).2.1.total_count = _
    rw [processRows_total_eq, wellFormed_add_malformed]
  · show (processRows (dbGet db name)
        ⟨cnt.inserted_count, cnt.total_count + rows.length⟩ rows faults).2.1.inserted_count ≤ _
    exact processRows_inserted_le rows (dbGet db name)
      ⟨cnt.inserted_count, cnt.total_count + rows.length⟩ faults

/-- C9 counterexample: the row `["", "http://x"]` has 2 fields, so it is
processed, yet the produced document's dedup key (its first field) is the
empty string — the claimed non-emptiness of `urlId` fails. -/
theorem urlid_nonempty_counterexample :
    ¬ (∀ (row : List String) (d : Doc), rowDoc row = some d → d.url_id ≠ "") := by
  intro h
  exact h ["", "http://x"] ⟨"", "http://x", "pending"⟩ rfl rfl

/-- C9 amended: every parsed row with at least 2 fields yields a document
whose dedup key is the row's first field verbatim (and whose `input_url` is
the second field, with status `pending`); no non-emptiness of the key is
enforced, so the key is empty exactly when the first field is. -/
theorem rowDoc_first_field (a b : String) (rest : List String) :
    rowDoc (a :: b :: rest) = some ⟨a, b, "pending"⟩ := rfl

/-- C8: the stats report's progress equals `inserted/total` expressed as a
percentage, reported as `0` when `total` is zero, and `healthy` holds exactly
when the sampled CPU and memory are both below 80. -/
theorem stats_progress_and_healthy (st : EtlState) (cpu mem : ℚ) (now : Nat) :
    (stats st cpu mem now).progress =
      (if st.counters.total_count = 0 then 0
       else (st.counters.inserted_count : ℚ) * 100 / (st.counters.total_count : ℚ)) ∧
    ((stats st cpu mem now).healthy = true ↔ cpu < 80 ∧ mem < 80) := by
  constructor
  · by_cases h : st.counters.total_count = 0
    · simp [stats, h]
    · simp only [stats, if_neg h]
      rw [div_mul_eq_mul_div]
  · simp [stats]

/-- C5: when the listing call raises, the run is fatal: the job ends with
`job_running = False`, the counters and the database are untouched, and no
file is downloaded or processed (the trace is empty). -/
theorem listing_failure_fatal (cfg : Config) (env : Env) (st : EtlState)
    (h : env.listing = ListingResult.listError) :
    (process_all_csv_from_spaces cfg env st).1.job_running = false ∧
    (process_all_csv_from_spaces cfg env st).1.counters = st.counters ∧
    (process_all_csv_from_spaces cfg env st).1.db = st.db ∧
    (process_all_csv_from_spaces cfg env st).2 = [] := by
  simp [process_all_csv_from_spaces, runPrologue, h]

/-- Witness for C5: a concrete run whose listing call raises. -/
theorem listing_failure_fatal_witness :
    (⟨ListingResult.listError, fun _ => ⟨none, []⟩, 3⟩ : Env).listing = ListingResult.listError ∧
    ((process_all_csv_from_spaces demoCfg ⟨ListingResult.listError, fun _ => ⟨none, []⟩, 3⟩
        ⟨[], ⟨2, 5⟩, false, none⟩).1.job_running = false ∧
     (process_all_csv_from_spaces demoCfg ⟨ListingResult.listError, fun _ => ⟨none, []⟩, 3⟩
        ⟨[], ⟨2, 5⟩, false, none⟩).1.counters = (⟨[], ⟨2, 5⟩, false, none⟩ : EtlState).counters ∧
     (process_all_csv_from_spaces demoCfg ⟨ListingResult.listError, fun _ => ⟨none, []⟩, 3⟩
        ⟨[], ⟨2, 5⟩, false, none⟩).1.db = (⟨[], ⟨2, 5⟩, false, none⟩ : EtlState).db ∧
     (process_all_csv_from_spaces demoCfg ⟨ListingResult.listError, fun _ => ⟨none, []⟩, 3⟩
        ⟨[], ⟨2, 5⟩, false, none⟩).2 = []) :=
  ⟨rfl, listing_failure_fatal demoCfg ⟨ListingResult.listError, fun _ => ⟨none, []⟩, 3⟩
    ⟨[], ⟨2, 5⟩, false, none⟩ rfl⟩

/-- C10: when the listing succeeds but the response has no contents, the run
ends immediately: the job ends with `job_running = False`, no file is
downloaded or processed, no document is written, and the counters are
unchanged. -/
theorem empty_listing_ends_run (cfg : Config) (env : Env) (st : EtlState)
    (h : env.listing = ListingResult.noContents) :
    (process_all_csv_from_spaces cfg env st).1.job_running = false ∧
    (process_all_csv_from_spaces cfg env st).1.counters = st.counters ∧
    (process_all_csv_from_spaces cfg env st).1.db = st.db ∧
    (process_all_csv_from_spaces cfg env st).2 = [] := by
  simp [process_all_csv_from_spaces, runPrologue, h]

/-- Witness for C10: a concrete run whose listing has no contents. -/
theorem empty_listing_ends_run_witness :
    (⟨ListingResult.noContents, fun _ => ⟨none, []⟩, 4⟩ : Env).listing = ListingResult.noContents ∧
    ((process_all_csv_from_spaces demoCfg ⟨ListingResult.noContents, fun _ => ⟨none, []⟩, 4⟩
        ⟨[], ⟨7, 9⟩, false, some 1⟩).1.job_running = false ∧
     (process_all_csv_from_spaces demoCfg ⟨ListingResult.noContents, fun _ => ⟨none, []⟩, 4⟩
        ⟨[], ⟨7, 9⟩, false, some 1⟩).1.counters = (⟨[], ⟨7, 9⟩, false, some 1⟩ : EtlState).counters ∧
     (process_all_csv_from_spaces demoCfg ⟨ListingResult.noContents, fun _ => ⟨none, []⟩, 4⟩
        ⟨[], ⟨7, 9⟩, false, some 1⟩).1.db = (⟨[], ⟨7, 9⟩, false, some 1⟩ : EtlState).db ∧
     (process_all_csv_from_spaces demoCfg ⟨ListingResult.noContents, fun _ => ⟨none, []⟩, 4⟩
        ⟨[], ⟨7, 9⟩, false, some 1⟩).2 = []) :=
  ⟨rfl, empty_listing_ends_run demoCfg ⟨ListingResult.noContents, fun _ => ⟨none, []⟩, 4⟩
    ⟨[], ⟨7, 9⟩, false, some 1⟩ rfl⟩

/-- C6: a file whose download fails is non-fatal to the run: the loop records
the failure in the trace, leaves the state untouched for that file (no counter
is incremented, no document written), and continues with the next file in
listing order from the very same state. -/
theorem download_failure_nonfatal (cfg : Config) (env : Env) (st : EtlState)
    (key : String) (rest : List String)
    (h : (env.file key).download = none) :
    runFiles cfg env st (key :: rest) =
      ((runFiles cfg env st rest).1,
       (key, FileOutcome.downloadFailed) :: (runFiles cfg env st rest).2) := by
  simp [runFiles, processOneFile, h]

/-- Witness for C6: the first file's download fails, the second file is still
processed from the unchanged state. -/
theorem download_failure_nonfatal_witness :
    ((⟨ListingResult.contents ["x.csv", "b.csv"],
        fun k => if k == "b.csv" then ⟨some (Except.ok [["1", "http://z"]]), []⟩
                 else ⟨none, []⟩, 5⟩ : Env).file "x.csv").download = none ∧
    runFiles demoCfg
        ⟨ListingResult.contents ["x.csv", "b.csv"],
         fun k => if k == "b.csv" then ⟨some (Except.ok [["1", "http://z"]]), []⟩
                  else ⟨none, []⟩, 5⟩
        (runPrologue demoState 5) ["x.csv", "b.csv"] =
      ((runFiles demoCfg
          ⟨ListingResult.contents ["x.csv", "b.csv"],
           fun k => if k == "b.csv" then ⟨some (Except.ok [["1", "http://z"]]), []⟩
                    else ⟨none, []⟩, 5⟩
          (runPrologue demoState 5) ["b.csv"]).1,
       ("x.csv", FileOutcome.downloadFailed) ::
        (runFiles demoCfg
          ⟨ListingResult.contents ["x.csv", "b.csv"],
           fun k => if k == "b.csv" then ⟨some (Except.ok [["1", "http://z"]]), []⟩
                    else ⟨none, []⟩, 5⟩
          (runPrologue demoState 5) ["b.csv"]).2) :=
  ⟨rfl, download_failure_nonfatal demoCfg
    ⟨ListingResult.contents ["x.csv", "b.csv"],
     fun k => if k == "b.csv" then ⟨some (Except.ok [["1", "http://z"]]), []⟩
              else ⟨none, []⟩, 5⟩
    (runPrologue demoState 5) "x.csv" ["b.csv"] rfl⟩

/-- C2 counterexample: calling start on the Idle state with counters
`{inserted: 5, total: 9}` spawns the run loop, whose prologue (everything the
run executes before any file is processed) leaves the counters at `{5, 9}`:
the code never resets them to zero. -/
theorem start_does_not_reset_counters :
    ¬ (∀ (st : EtlState) (now : Nat), st.job_running = false →
        (runPrologue st now).counters = ⟨0, 0⟩) := by
  intro h
  have hc := h ⟨[], ⟨5, 9⟩, false, none⟩ 0 rfl
  simp [runPrologue] at hc

/-- C2 amended: start while a job is running is a no-op that reports the job
as already running and spawns nothing; start while Idle spawns the run loop,
which transitions to Running and records the start time before any file is
processed, while the counters (and the database) keep their previous values —
they are not reset. -/
theorem start_job_amended (st : EtlState) (now : Nat) :
    (st.job_running = true →
      start_job st = (st, "⚠️ Job already running", false)) ∧
    (st.job_running = false →
      start_job st = (st, "🚀 Job started", true) ∧
      runPrologue st now = ⟨st.db, st.counters, true, some now⟩) := by
  constructor
  · intro h
    simp [start_job, h]
  · intro h
    exact ⟨by simp [start_job, h], rfl⟩

/-- Witness for C2 amended, at a Running state and at an Idle state with
nonzero counters. -/
theorem start_job_amended_witness :
    ((⟨[], ⟨1, 2⟩, true, none⟩ : EtlState).job_running = true ∧
      start_job ⟨[], ⟨1, 2⟩, true, none⟩ = (⟨[], ⟨1, 2⟩, true, none⟩, "⚠️ Job already running", false)) ∧
    ((⟨[], ⟨3, 4⟩, false, none⟩ : EtlState).job_running = false ∧
      runPrologue ⟨[], ⟨3, 4⟩, false, none⟩ 7 = ⟨[], ⟨3, 4⟩, true, some 7⟩) :=
  ⟨⟨rfl, (start_job_amended ⟨[], ⟨1, 2⟩, true, none⟩ 7).1 rfl⟩,
   ⟨rfl, ((start_job_amended ⟨[], ⟨3, 4⟩, false, none⟩ 7).2 rfl).2⟩⟩

/-- C7 counterexample: the claim that every counter mutation happens under the
lock and every stats read acquires it fails at the very first access site,
`total_count += len(rows)` at line 97, which is a mutation outside any
`with lock:` block (and again at the lock-free stats reads). -/
theorem lock_discipline_counterexample :
    ¬ (∀ a ∈ counterAccesses,
        (a.kind = AccessKind.writeAccess → a.underLock = true) ∧
        (a.inStatsReporter = true → a.underLock = true)) := by
  intro h
  have hm : (⟨"line 97: total_count += len(rows)", CounterField.totalField,
      AccessKind.writeAccess, false, false⟩ : CounterAccess) ∈ counterAccesses := by
    unfold counterAccesses
    exact List.mem_cons_self _ _
  have hw := (h _ hm).1 rfl
  exact Bool.false_ne_true hw

/-- C7 amended: among all accesses to the shared counters, exactly one happens
under the lock — the increment of `inserted_count`; the increment of
`total_count` and every read, the stats reporter's included, access the
counters without acquiring the lock (and no access site resets them). -/
theorem lock_discipline_amended :
    ∀ a ∈ counterAccesses,
      (a.underLock = true ↔
        (a.kind = AccessKind.writeAccess ∧ a.field = CounterField.insertedField)) := by
  intro a ha
  fin_cases ha <;> simp

/-- Witness for C7 amended at the one locked site, line 112. -/
theorem lock_discipline_amended_witness :
    ((⟨"line 112: inserted_count += 1", CounterField.insertedField,
        AccessKind.writeAccess, false, true⟩ : CounterAccess).underLock = true ↔
      ((⟨"line 112: inserted_count += 1", CounterField.insertedField,
          AccessKind.writeAccess, false, true⟩ : CounterAccess).kind = AccessKind.writeAccess ∧
       (⟨"line 112: inserted_count += 1", CounterField.insertedField,
          AccessKind.writeAccess, false, true⟩ : CounterAccess).field = CounterField.insertedField)) :=
  lock_discipline_amended _ (by
    unfold counterAccesses
    exact List.mem_cons_of_mem _ (List.mem_cons_self _ _))

/-- C1: the stop flag is never checked by the run loop.  In the concrete
two-file scenario, a stop request that lands at the loop boundary right after
`a.csv` completes (file 1 of 2) does not prevent `b.csv` from being processed:
the trace still covers both files, `total_count` reaches 2, and `b.csv`'s row
is inserted into collection `b` — contradicting the claimed bound that no file
beyond file 1 is processed. -/
theorem stop_signal_ignored_by_run_loop :
    (runFilesStopAfter demoCfg demoEnv (runPrologue demoState 5)
        ["a.csv", "b.csv"] 1).1.counters.total_count = 2 ∧
    ((runFilesStopAfter demoCfg demoEnv (runPrologue demoState 5)
        ["a.csv", "b.csv"] 1).2.map Prod.fst) = ["a.csv", "b.csv"] ∧
    countUrlId (dbGet (runFilesStopAfter demoCfg demoEnv (runPrologue demoState 5)
        ["a.csv", "b.csv"] 1).1.db "b") "1" = 1 :=
  ⟨by decide, by decide, by decide⟩

end Etl
